import Mathlib

/-
Verification of the js-dependency-update GitHub action
(src/.github/actions/js-dependency-update/index.js).

The script is a single linear orchestration: read four required inputs and a
debug flag, validate branch/directory names against character classes, run
`npm update`, check `git status -s package*.json`, and if the status output is
non-empty run the publisher sequence (git identity config, checkout -b, add,
commit, push, octokit PR creation guarded by try/catch).

We embed the script as a deterministic interpreter.  External effects
(subprocesses via exec.exec / exec.getExecOutput, the octokit API call,
core.info / core.error / core.setFailed / core.setSecret) become events in a
trace.  The outcomes of the external collaborators (exit codes, git-status
stdout, PR-creation success) are supplied by an `Env` record, so the
interpreter is a pure function of the inputs and the environment.
-/

namespace JsDependencyUpdate

/-- One observable effect of the script.
`subprocess cmd cwd` models `exec.exec` / `exec.getExecOutput` (the command
string and the `cwd` option, `none` when no options object was passed);
`apiCreatePR` models `octokit.rest.pulls.create`; `logInfo` / `logError`
model `core.info` / `core.error`; `setFailed` and `setSecret` model the
corresponding `@actions/core` calls. -/
inductive Event where
  | subprocess (cmd : String) (cwd : Option String)
  | apiCreatePR (base head title body : String)
  | logInfo (text : String)
  | logError (text : String)
  | setFailed (msg : String)
  | setSecret (tok : String)
  deriving DecidableEq, Repr

def Event.isSub : Event → Bool
  | .subprocess _ _ => true
  | _ => false

def Event.isApi : Event → Bool
  | .apiCreatePR _ _ _ _ => true
  | _ => false

def Event.isSubOrApi (e : Event) : Bool := e.isSub || e.isApi

/-- Final status of a run: `success` (exit code 0), `failed`
(`core.setFailed` was called, process exit code 1), or `thrown`
(an uncaught exception: missing required input, or a subprocess that
rejected because it exited non-zero). -/
inductive RunResult where
  | success
  | failed
  | thrown (msg : String)
  deriving DecidableEq, Repr

/-- Character class of the regex `/^[a-zA-Z0-9_\-\.\/]+$/` used by
`validateBranchName`: ASCII letters, digits, underscore, hyphen, dot,
forward slash. -/
def isBranchChar (c : Char) : Bool :=
  (97 ≤ c.toNat && c.toNat ≤ 122) ||        -- a-z
  (65 ≤ c.toNat && c.toNat ≤ 90) ||         -- A-Z
  (48 ≤ c.toNat && c.toNat ≤ 57) ||         -- 0-9
  c == '_' || c == '-' || c == '.' || c == '/'

/-- Character class of the regex `/^[a-zA-Z0-9_\-\/]+$/` used by
`validateDirectoryName`: same as the branch class but without the dot. -/
def isDirChar (c : Char) : Bool :=
  (97 ≤ c.toNat && c.toNat ≤ 122) ||
  (65 ≤ c.toNat && c.toNat ≤ 90) ||
  (48 ≤ c.toNat && c.toNat ≤ 57) ||
  c == '_' || c == '-' || c == '/'

/-- `validateBranchName = ({branchName}) => /^[a-zA-Z0-9_\-\.\/]+$/.test(branchName)`.
The anchored `+` regex matches exactly the non-empty strings all of whose
characters are in the class. -/
def validateBranchName (branchName : String) : Bool :=
  !branchName.data.isEmpty && branchName.data.all isBranchChar

/-- `validateDirectoryName = ({dirName}) => /^[a-zA-Z0-9_\-\/]+$/.test(dirName)`. -/
def validateDirectoryName (dirName : String) : Bool :=
  !dirName.data.isEmpty && dirName.data.all isDirChar

/-- The logger state produced by `setupLogger({debug, prefix})`:
the debug flag and the fixed message tag (the `prefix` option). -/
structure Logger where
  debugFlag : Bool
  tag : String
  deriving Repr

/-- The separator `${prefix ? " : " : ""}` from the template literals:
in JS only the empty string is falsy. -/
def sep (tag : String) : String := if tag == "" then "" else " : "

/-- `logger.debug`: emits `DEBUG ${prefix}${sep}${message}` through
`core.info`, but only when the debug flag is set. -/
def Logger.debugOut (lg : Logger) (message : String) : List Event :=
  if lg.debugFlag then
    [.logInfo ("DEBUG " ++ lg.tag ++ sep lg.tag ++ message)]
  else []

/-- `logger.info`: always emits `${prefix}${sep}${message}` through `core.info`. -/
def Logger.infoOut (lg : Logger) (message : String) : List Event :=
  [.logInfo (lg.tag ++ sep lg.tag ++ message)]

/-- `logger.error`: always emits `${prefix}${sep}${message}` through `core.error`. -/
def Logger.errorOut (lg : Logger) (message : String) : List Event :=
  [.logError (lg.tag ++ sep lg.tag ++ message)]

def setupLogger (debugFlag : Bool) (tag : String) : Logger :=
  ⟨debugFlag, tag⟩

/-- The action's inputs.  `core.getInput(name, {required: true})` throws when
the input is absent (or empty), so the four required inputs are `Option`s with
`none` for "absent"; `debug` is the value parsed by `core.getBooleanInput`. -/
structure Inputs where
  baseBranch : Option String
  headBranch : Option String
  ghToken : Option String
  workingDir : Option String
  debug : Bool
  deriving Repr

/-- Outcomes of the external collaborators during one run: whether each
subprocess exits 0 (`exec.exec` and `exec.getExecOutput` reject on a non-zero
exit code), the stdout of the `git status` query, and the result of the
octokit pull-request creation call (`Except.error m` models a thrown error
whose `.message` is `m`). -/
structure Env where
  npmUpdateOk : Bool
  gitStatusOk : Bool
  gitStatusStdout : String
  configNameOk : Bool
  configEmailOk : Bool
  checkoutOk : Bool
  addOk : Bool
  commitOk : Bool
  pushOk : Bool
  prCreate : Except String Unit
  deriving Repr

def missingInputMsg (name : String) : String :=
  "Input required and not supplied: " ++ name

def invalidBaseMsg : String :=
  "Invalid base branch name. Brnch names should include only characters, numbers, hyphens, underscores, dots and forward slashes"

def invalidHeadMsg : String :=
  "Invalid head branch name. Brnch names should include only characters, numbers, hyphens, underscores, dots and forward slashes"

def invalidDirMsg : String :=
  "Invalid directory name. Directory names should include only characters, numbers, hyphens, underscores and forward slashes"

/-- The `run` function of index.js, step by step.  Events are appended in
program order; the run result records how the function ended.  Validation
failures call `core.setFailed` and `return`; a non-zero subprocess exit is an
uncaught rejection (`thrown`); a PR-creation error is caught, logged, and
`core.setFailed(e.message)` is called, after which execution falls through to
the final `core.info("I am a custom JS action")`. -/
def runAction (inp : Inputs) (env : Env) : List Event × RunResult :=
  match inp.baseBranch with
  | none => ([], .thrown (missingInputMsg "base-branch"))
  | some basebranch =>
  match inp.headBranch with
  | none => ([], .thrown (missingInputMsg "head-branch"))
  | some headBranch =>
  match inp.ghToken with
  | none => ([], .thrown (missingInputMsg "gh-token"))
  | some ghToken =>
  match inp.workingDir with
  | none => ([], .thrown (missingInputMsg "working-directory"))
  | some workingDir =>
  let logger := setupLogger inp.debug "[js-dependency-update]"
  let ev0 := Event.setSecret ghToken ::
    logger.debugOut "Validating inputs base-branch, head-branch, working-directory"
  if !validateBranchName basebranch then
    (ev0 ++ [.setFailed invalidBaseMsg], .failed)
  else if !validateBranchName headBranch then
    (ev0 ++ [.setFailed invalidHeadMsg], .failed)
  else if !validateDirectoryName workingDir then
    (ev0 ++ [.setFailed invalidDirMsg], .failed)
  else
  let ev1 := ev0 ++ logger.debugOut ("Base branch is " ++ basebranch)
    ++ logger.debugOut ("Head branch is " ++ headBranch)
    ++ logger.debugOut ("Working directory is " ++ workingDir)
    ++ logger.debugOut "Checking for package update"
    ++ [.subprocess "npm update" (some workingDir)]
  if !env.npmUpdateOk then (ev1, .thrown "npm update exited non-zero") else
  let ev2 := ev1 ++ [.subprocess "git status -s package*.json" (some workingDir)]
  if !env.gitStatusOk then (ev2, .thrown "git status exited non-zero") else
  if env.gitStatusStdout.length > 0 then
    let p0 := ev2 ++ logger.debugOut "There are updates available!"
      ++ logger.debugOut "Setting up git"
      ++ [.subprocess "git config --global user.name \"gh-automation" none]
    if !env.configNameOk then (p0, .thrown "git config user.name exited non-zero") else
    let p1 := p0 ++ [.subprocess "git config --global user.email \"gh-automation@email.com" none]
    if !env.configEmailOk then (p1, .thrown "git config user.email exited non-zero") else
    let p2 := p1 ++ logger.debugOut "Commiting and pushing package*.json changes"
      ++ [.subprocess ("git checkout -b " ++ headBranch) (some workingDir)]
    if !env.checkoutOk then (p2, .thrown "git checkout exited non-zero") else
    let p3 := p2 ++ [.subprocess "git add package.json package-lock.json" (some workingDir)]
    if !env.addOk then (p3, .thrown "git add exited non-zero") else
    let p4 := p3 ++ [.subprocess "git commit -m \"chore update dependencies" (some workingDir)]
    if !env.commitOk then (p4, .thrown "git commit exited non-zero") else
    let p5 := p4 ++ [.subprocess ("git push -u origin " ++ headBranch ++ " --force") (some workingDir)]
    if !env.pushOk then (p5, .thrown "git push exited non-zero") else
    let p6 := p5 ++ logger.debugOut "Fetching octokit API"
      ++ logger.debugOut ("Creating PR branch using head branch " ++ headBranch)
      ++ [.apiCreatePR basebranch headBranch "Update NPM dependencies"
            "This pull request updates NPM packages"]
    match env.prCreate with
    | .ok _ => (p6 ++ [.logInfo "I am a custom JS action"], .success)
    | .error m =>
      (p6 ++ logger.errorOut "Something went wrong while creating the PR. Check logs below"
        ++ [.setFailed m]
        ++ logger.errorOut ("Error: " ++ m)
        ++ [.logInfo "I am a custom JS action"], .failed)
  else
    (ev2 ++ logger.infoOut "No updates at this point in time!"
      ++ [.logInfo "I am a custom JS action"], .success)

/-- The subprocess and API events of a trace, in order. -/
def subApiTrace (tr : List Event) : List Event := tr.filter Event.isSubOrApi

/-- The subprocess events of a trace, in order. -/
def subTrace (tr : List Event) : List Event := tr.filter Event.isSub

/-- The command string of a subprocess event, if any. -/
def cmdOf : Event → Option String
  | .subprocess c _ => some c
  | _ => none

/-- The command strings of the subprocess events of a trace, in order. -/
def subCmds (tr : List Event) : List String :=
  tr.filterMap cmdOf

/-- The API events of a trace. -/
def apiCalls (tr : List Event) : List Event := tr.filter Event.isApi

-- Projection lemmas: logger output contains no subprocess or API events and
-- no setFailed events, so the projections ignore it.

@[simp] theorem debugOut_filter_isSub (lg : Logger) (m : String) :
    (lg.debugOut m).filter Event.isSub = [] := by
  unfold Logger.debugOut; split <;> rfl

@[simp] theorem debugOut_filter_isApi (lg : Logger) (m : String) :
    (lg.debugOut m).filter Event.isApi = [] := by
  unfold Logger.debugOut; split <;> rfl

@[simp] theorem debugOut_filter_isSubOrApi (lg : Logger) (m : String) :
    (lg.debugOut m).filter Event.isSubOrApi = [] := by
  unfold Logger.debugOut; split <;> rfl

@[simp] theorem debugOut_any_isSub (lg : Logger) (m : String) :
    (lg.debugOut m).any Event.isSub = false := by
  unfold Logger.debugOut; split <;> rfl

@[simp] theorem not_setFailed_mem_debugOut (lg : Logger) (m s : String) :
    Event.setFailed s ∉ lg.debugOut m := by
  unfold Logger.debugOut; split <;> simp

@[simp] theorem mem_debugOut_iff (lg : Logger) (m : String) (e : Event) :
    e ∈ lg.debugOut m ↔
      lg.debugFlag = true
      ∧ e = .logInfo ("DEBUG " ++ lg.tag ++ sep lg.tag ++ m) := by
  unfold Logger.debugOut; split <;> simp_all

@[simp] theorem subCmds_debugOut (lg : Logger) (m : String) :
    subCmds (lg.debugOut m) = [] := by
  unfold Logger.debugOut; split <;> rfl

@[simp] theorem subCmds_append (l1 l2 : List Event) :
    subCmds (l1 ++ l2) = subCmds l1 ++ subCmds l2 := by
  simp [subCmds]

@[simp] theorem debugOut_filterMap_cmdOf (lg : Logger) (m : String) :
    (lg.debugOut m).filterMap cmdOf = [] := by
  unfold Logger.debugOut; split <;> rfl

/-- An environment in which every subprocess exits 0, parameterized by the
stdout of the `git status` query and the PR-creation outcome. -/
def mkEnv (stdout : String) (pr : Except String Unit) : Env :=
  ⟨true, true, stdout, true, true, true, true, true, true, pr⟩

/-- The complete subprocess sequence of a run that reaches the publisher:
npm update, git status, the two identity configs, checkout -b, add, commit,
push.  Used to state the trace projections. -/
def subEventSeq (hb wd : String) : List Event :=
  [.subprocess "npm update" (some wd),
   .subprocess "git status -s package*.json" (some wd),
   .subprocess "git config --global user.name \"gh-automation" none,
   .subprocess "git config --global user.email \"gh-automation@email.com" none,
   .subprocess ("git checkout -b " ++ hb) (some wd),
   .subprocess "git add package.json package-lock.json" (some wd),
   .subprocess "git commit -m \"chore update dependencies" (some wd),
   .subprocess ("git push -u origin " ++ hb ++ " --force") (some wd)]

/-- The pull-request creation event with the fixed title and body. -/
def prEvent (bb hb : String) : Event :=
  .apiCreatePR bb hb "Update NPM dependencies" "This pull request updates NPM packages"

-- Characterizations of validation failure used by the safety claims.

theorem validateBranchName_false_of_bad (s : String)
    (h : (∃ c ∈ s.data, isBranchChar c = false) ∨ s = "") :
    validateBranchName s = false := by
  rcases h with ⟨c, hc, hcf⟩ | rfl
  · have hall : s.data.all isBranchChar = false :=
      List.all_eq_false.mpr ⟨c, hc, by simp [hcf]⟩
    simp [validateBranchName, hall]
  · rfl

theorem validateDirectoryName_false_of_bad (s : String)
    (h : (∃ c ∈ s.data, isDirChar c = false) ∨ s = "") :
    validateDirectoryName s = false := by
  rcases h with ⟨c, hc, hcf⟩ | rfl
  · have hall : s.data.all isDirChar = false :=
      List.all_eq_false.mpr ⟨c, hc, by simp [hcf]⟩
    simp [validateDirectoryName, hall]
  · rfl

theorem validateBranchName_nonempty {s : String}
    (h : validateBranchName s = true) : s ≠ "" := by
  rintro rfl
  simp [validateBranchName] at h

theorem validateDirectoryName_nonempty {s : String}
    (h : validateDirectoryName s = true) : s ≠ "" := by
  rintro rfl
  simp [validateDirectoryName] at h

/-- Any run whose trace contains a subprocess event had all four inputs
present and passed all three validations. -/
theorem validated_of_subprocess (inp : Inputs) (env : Env)
    (h : (runAction inp env).1.any Event.isSub = true) :
    ∃ bb hb tok wd, inp.baseBranch = some bb ∧ inp.headBranch = some hb
      ∧ inp.ghToken = some tok ∧ inp.workingDir = some wd
      ∧ validateBranchName bb = true ∧ validateBranchName hb = true
      ∧ validateDirectoryName wd = true := by
  obtain ⟨obb, ohb, otok, owd, dbg⟩ := inp
  cases obb with
  | none => simp [runAction] at h
  | some bb =>
  cases ohb with
  | none => simp [runAction] at h
  | some hb =>
  cases otok with
  | none => simp [runAction] at h
  | some tok =>
  cases owd with
  | none => simp [runAction] at h
  | some wd =>
  refine ⟨bb, hb, tok, wd, rfl, rfl, rfl, rfl, ?_, ?_, ?_⟩ <;>
  · by_cases h1 : validateBranchName bb = true <;>
    by_cases h2 : validateBranchName hb = true <;>
    by_cases h3 : validateDirectoryName wd = true <;>
      first
      | assumption
      | simp_all [runAction, Event.isSub]

-- Sanity checks of the embedding on concrete inputs.

example : validateBranchName "main" = true := by decide
example : validateBranchName "main; rm -rf /" = false := by decide
example : validateBranchName "" = false := by decide
example : validateBranchName "feature/x.y-z_1" = true := by decide
example : validateDirectoryName "src && echo pwned" = false := by decide
example : validateDirectoryName "a.b" = false := by decide
example : validateDirectoryName "apps/web" = true := by decide

example :
    runAction ⟨none, some "h", some "t", some "d", false⟩
      ⟨true, true, "", true, true, true, true, true, true, .ok ()⟩ =
    ([], .thrown "Input required and not supplied: base-branch") := by
  decide

example :
    (runAction ⟨some "main", some "update", some "t", some "app", false⟩
      ⟨true, true, "", true, true, true, true, true, true, .ok ()⟩).2 = .success := by
  decide

example :
    subCmds (runAction ⟨some "main", some "update", some "t", some "app", false⟩
      ⟨true, true, " M package.json", true, true, true, true, true, true, .ok ()⟩).1 =
    ["npm update", "git status -s package*.json",
     "git config --global user.name \"gh-automation",
     "git config --global user.email \"gh-automation@email.com",
     "git checkout -b update", "git add package.json package-lock.json",
     "git commit -m \"chore update dependencies",
     "git push -u origin update --force"] := by
  decide

example :
    (runAction ⟨some "main", some "update", some "t", some "app", true⟩
      ⟨true, true, " M package.json", true, true, true, true, true, true, .error "boom"⟩).2
      = .failed := by
  decide

/-- C7: if any of the four required inputs (base-branch, head-branch,
gh-token, working-directory) is absent, the run throws a missing-input error
naming that input, the trace is empty — so no subprocess is invoked and no
format validation message is ever produced. -/
theorem C7_missing_input_fails_first (inp : Inputs) (env : Env)
    (h : inp.baseBranch = none ∨ inp.headBranch = none ∨ inp.ghToken = none
      ∨ inp.workingDir = none) :
    (runAction inp env).1 = []
    ∧ ((runAction inp env).2 = .thrown (missingInputMsg "base-branch")
      ∨ (runAction inp env).2 = .thrown (missingInputMsg "head-branch")
      ∨ (runAction inp env).2 = .thrown (missingInputMsg "gh-token")
      ∨ (runAction inp env).2 = .thrown (missingInputMsg "working-directory")) := by
  obtain ⟨obb, ohb, otok, owd, dbg⟩ := inp
  cases obb <;> cases ohb <;> cases otok <;> cases owd <;> simp_all [runAction]

/-- Witness for C7 at a concrete input with gh-token missing. -/
theorem C7_missing_input_fails_first_witness :
    ((⟨some "main", some "update", none, some "app", false⟩ : Inputs).baseBranch = none
      ∨ (⟨some "main", some "update", none, some "app", false⟩ : Inputs).headBranch = none
      ∨ (⟨some "main", some "update", none, some "app", false⟩ : Inputs).ghToken = none
      ∨ (⟨some "main", some "update", none, some "app", false⟩ : Inputs).workingDir = none)
    ∧ ((runAction ⟨some "main", some "update", none, some "app", false⟩ (mkEnv "" (.ok ()))).1 = []
      ∧ ((runAction ⟨some "main", some "update", none, some "app", false⟩ (mkEnv "" (.ok ()))).2
            = .thrown (missingInputMsg "base-branch")
        ∨ (runAction ⟨some "main", some "update", none, some "app", false⟩ (mkEnv "" (.ok ()))).2
            = .thrown (missingInputMsg "head-branch")
        ∨ (runAction ⟨some "main", some "update", none, some "app", false⟩ (mkEnv "" (.ok ()))).2
            = .thrown (missingInputMsg "gh-token")
        ∨ (runAction ⟨some "main", some "update", none, some "app", false⟩ (mkEnv "" (.ok ()))).2
            = .thrown (missingInputMsg "working-directory"))) :=
  ⟨by decide, C7_missing_input_fails_first _ _ (by decide)⟩

/-- C8: the logger emits a debug-level message if and only if the debug flag
is true; info-level and error-level messages are emitted unconditionally, and
every emitted message carries the configured tag with its separator. -/
theorem C8_logger_levels (d : Bool) (tag message : String) :
    ((setupLogger d tag).debugOut message ≠ [] ↔ d = true)
    ∧ (d = true → (setupLogger d tag).debugOut message
        = [Event.logInfo ("DEBUG " ++ tag ++ sep tag ++ message)])
    ∧ (setupLogger d tag).infoOut message
        = [Event.logInfo (tag ++ sep tag ++ message)]
    ∧ (setupLogger d tag).errorOut message
        = [Event.logError (tag ++ sep tag ++ message)] := by
  cases d <;>
    simp [setupLogger, Logger.debugOut, Logger.infoOut, Logger.errorOut]

/-- C9: both validators reject the empty string, and therefore no run whose
trace contains a subprocess event was started with an empty branch name or an
empty working directory. -/
theorem C9_validators_reject_empty :
    validateBranchName "" = false ∧ validateDirectoryName "" = false
    ∧ ∀ (inp : Inputs) (env : Env),
        (runAction inp env).1.any Event.isSub = true →
          inp.baseBranch ≠ some "" ∧ inp.headBranch ≠ some ""
          ∧ inp.workingDir ≠ some "" := by
  refine ⟨rfl, rfl, ?_⟩
  intro inp env h
  obtain ⟨bb, hb, tok, wd, e1, e2, e3, e4, v1, v2, v3⟩ :=
    validated_of_subprocess inp env h
  refine ⟨?_, ?_, ?_⟩
  · rw [e1]
    simp only [ne_eq, Option.some.injEq]
    exact validateBranchName_nonempty v1
  · rw [e2]
    simp only [ne_eq, Option.some.injEq]
    exact validateBranchName_nonempty v2
  · rw [e4]
    simp only [ne_eq, Option.some.injEq]
    exact validateDirectoryName_nonempty v3

/-- C2: a base-branch or head-branch input containing a character outside
the class letters/digits/underscore/hyphen/dot/slash (or the empty string)
makes the run fail with a branch-name message before any subprocess or API
call: the trace contains no subprocess command and no PR creation. -/
theorem C2_branch_validation_rejects (bb hb tok wd : String) (dbg : Bool) (env : Env)
    (h : ((∃ c ∈ bb.data, isBranchChar c = false) ∨ bb = "")
       ∨ ((∃ c ∈ hb.data, isBranchChar c = false) ∨ hb = "")) :
    (runAction ⟨some bb, some hb, some tok, some wd, dbg⟩ env).2 = .failed
    ∧ (Event.setFailed invalidBaseMsg
          ∈ (runAction ⟨some bb, some hb, some tok, some wd, dbg⟩ env).1
      ∨ Event.setFailed invalidHeadMsg
          ∈ (runAction ⟨some bb, some hb, some tok, some wd, dbg⟩ env).1)
    ∧ subCmds (runAction ⟨some bb, some hb, some tok, some wd, dbg⟩ env).1 = []
    ∧ apiCalls (runAction ⟨some bb, some hb, some tok, some wd, dbg⟩ env).1 = [] := by
  by_cases h1 : validateBranchName bb = true
  · have h2 : validateBranchName hb = false := by
      rcases h with hbad | hbad
      · exact absurd h1 (by simp [validateBranchName_false_of_bad bb hbad])
      · exact validateBranchName_false_of_bad hb hbad
    simp [runAction, h1, h2, subCmds, apiCalls, Event.isApi, cmdOf]
  · have h1f : validateBranchName bb = false := by
      simpa using h1
    simp [runAction, h1f, subCmds, apiCalls, Event.isApi, cmdOf]

/-- Witness for C2 at the injection attempt of the spec. -/
theorem C2_branch_validation_rejects_witness :
    (((∃ c ∈ ("main; rm -rf /").data, isBranchChar c = false) ∨ ("main; rm -rf /") = "")
       ∨ ((∃ c ∈ ("update").data, isBranchChar c = false) ∨ ("update") = ""))
    ∧ ((runAction ⟨some "main; rm -rf /", some "update", some "t", some "app", false⟩
          (mkEnv "" (.ok ()))).2 = .failed
      ∧ (Event.setFailed invalidBaseMsg
            ∈ (runAction ⟨some "main; rm -rf /", some "update", some "t", some "app", false⟩
                (mkEnv "" (.ok ()))).1
        ∨ Event.setFailed invalidHeadMsg
            ∈ (runAction ⟨some "main; rm -rf /", some "update", some "t", some "app", false⟩
                (mkEnv "" (.ok ()))).1)
      ∧ subCmds (runAction ⟨some "main; rm -rf /", some "update", some "t", some "app", false⟩
          (mkEnv "" (.ok ()))).1 = []
      ∧ apiCalls (runAction ⟨some "main; rm -rf /", some "update", some "t", some "app", false⟩
          (mkEnv "" (.ok ()))).1 = []) :=
  ⟨by decide, C2_branch_validation_rejects _ _ _ _ _ _ (by decide)⟩

/-- C6: when both branch names are well-formed, a working-directory input
containing a character outside letters/digits/underscore/hyphen/slash (for
instance a space, a semicolon, or a dot) makes the run fail with the
directory-name message before any subprocess or API call. -/
theorem C6_directory_validation_rejects (bb hb tok wd : String) (dbg : Bool) (env : Env)
    (h1 : validateBranchName bb = true) (h2 : validateBranchName hb = true)
    (h : (∃ c ∈ wd.data, isDirChar c = false) ∨ wd = "") :
    (runAction ⟨some bb, some hb, some tok, some wd, dbg⟩ env).2 = .failed
    ∧ Event.setFailed invalidDirMsg
        ∈ (runAction ⟨some bb, some hb, some tok, some wd, dbg⟩ env).1
    ∧ subCmds (runAction ⟨some bb, some hb, some tok, some wd, dbg⟩ env).1 = []
    ∧ apiCalls (runAction ⟨some bb, some hb, some tok, some wd, dbg⟩ env).1 = [] := by
  have h3 : validateDirectoryName wd = false := validateDirectoryName_false_of_bad wd h
  simp [runAction, h1, h2, h3, subCmds, apiCalls, Event.isApi, cmdOf]

/-- Witness for C6 at the injection attempt of the spec. -/
theorem C6_directory_validation_rejects_witness :
    validateBranchName "main" = true
    ∧ validateBranchName "update" = true
    ∧ ((∃ c ∈ ("src && echo pwned").data, isDirChar c = false) ∨ ("src && echo pwned") = "")
    ∧ ((runAction ⟨some "main", some "update", some "t", some "src && echo pwned", false⟩
          (mkEnv "" (.ok ()))).2 = .failed
      ∧ Event.setFailed invalidDirMsg
          ∈ (runAction ⟨some "main", some "update", some "t", some "src && echo pwned", false⟩
              (mkEnv "" (.ok ()))).1
      ∧ subCmds (runAction ⟨some "main", some "update", some "t", some "src && echo pwned", false⟩
          (mkEnv "" (.ok ()))).1 = []
      ∧ apiCalls (runAction ⟨some "main", some "update", some "t", some "src && echo pwned", false⟩
          (mkEnv "" (.ok ()))).1 = []) :=
  ⟨by decide, by decide, by decide,
    C6_directory_validation_rejects _ _ _ _ _ _ (by decide) (by decide) (by decide)⟩

/-- C1: with valid inputs and succeeding subprocesses, the publisher sequence
(identity setup, branch creation, staging, commit, push, PR creation) runs if
and only if the git-status stdout is non-empty; on empty stdout the run logs
the no-updates info message and ends successfully, its only subprocess or API
events being the npm update and the status query themselves. -/
theorem C1_publisher_iff_updates (bb hb tok wd : String) (dbg : Bool)
    (stdout : String) (pr : Except String Unit)
    (h1 : validateBranchName bb = true) (h2 : validateBranchName hb = true)
    (h3 : validateDirectoryName wd = true) :
    (0 < stdout.length →
      subApiTrace (runAction ⟨some bb, some hb, some tok, some wd, dbg⟩ (mkEnv stdout pr)).1
        = subEventSeq hb wd ++ [prEvent bb hb])
    ∧ (stdout.length = 0 →
      (runAction ⟨some bb, some hb, some tok, some wd, dbg⟩ (mkEnv stdout pr)).2 = .success
      ∧ Event.logInfo "[js-dependency-update] : No updates at this point in time!"
          ∈ (runAction ⟨some bb, some hb, some tok, some wd, dbg⟩ (mkEnv stdout pr)).1
      ∧ subApiTrace (runAction ⟨some bb, some hb, some tok, some wd, dbg⟩ (mkEnv stdout pr)).1
          = [.subprocess "npm update" (some wd),
             .subprocess "git status -s package*.json" (some wd)]) := by
  constructor
  · intro hs
    cases pr <;>
      simp [runAction, mkEnv, h1, h2, h3, hs, subApiTrace, subEventSeq, prEvent,
        Event.isSubOrApi, Event.isSub, Event.isApi, Logger.infoOut, Logger.errorOut]
  · intro hs
    simp [runAction, mkEnv, h1, h2, h3, hs, subApiTrace, setupLogger, sep,
      Event.isSubOrApi, Event.isSub, Event.isApi, Logger.infoOut]

/-- Witness for C1 with modified manifest files reported by git status. -/
theorem C1_publisher_iff_updates_witness :
    validateBranchName "main" = true
    ∧ validateBranchName "update-deps" = true
    ∧ validateDirectoryName "app" = true
    ∧ ((0 < (" M package.json" : String).length →
        subApiTrace (runAction ⟨some "main", some "update-deps", some "t", some "app", false⟩
            (mkEnv " M package.json" (.ok ()))).1
          = subEventSeq "update-deps" "app" ++ [prEvent "main" "update-deps"])
      ∧ ((" M package.json" : String).length = 0 →
        (runAction ⟨some "main", some "update-deps", some "t", some "app", false⟩
            (mkEnv " M package.json" (.ok ()))).2 = .success
        ∧ Event.logInfo "[js-dependency-update] : No updates at this point in time!"
            ∈ (runAction ⟨some "main", some "update-deps", some "t", some "app", false⟩
                (mkEnv " M package.json" (.ok ()))).1
        ∧ subApiTrace (runAction ⟨some "main", some "update-deps", some "t", some "app", false⟩
            (mkEnv " M package.json" (.ok ()))).1
            = [.subprocess "npm update" (some "app"),
               .subprocess "git status -s package*.json" (some "app")])) :=
  ⟨by decide, by decide, by decide,
    C1_publisher_iff_updates _ _ _ _ _ _ _ (by decide) (by decide) (by decide)⟩

/-- C3: when changes are detected, the publisher performs, after the npm
update and the status query, exactly the identity configuration, branch
creation with the head branch, staging of exactly package.json and
package-lock.json, commit, push of the head branch, and last the PR-creation
API call — in that order and with no other subprocess or API event. -/
theorem C3_publisher_order (bb hb tok wd : String) (dbg : Bool)
    (stdout : String) (pr : Except String Unit)
    (h1 : validateBranchName bb = true) (h2 : validateBranchName hb = true)
    (h3 : validateDirectoryName wd = true) (hs : 0 < stdout.length) :
    subApiTrace (runAction ⟨some bb, some hb, some tok, some wd, dbg⟩ (mkEnv stdout pr)).1
      = subEventSeq hb wd ++ [prEvent bb hb] := by
  cases pr <;>
    simp [runAction, mkEnv, h1, h2, h3, hs, subApiTrace, subEventSeq, prEvent,
      Event.isSubOrApi, Event.isSub, Event.isApi, Logger.infoOut, Logger.errorOut]

/-- Witness for C3. -/
theorem C3_publisher_order_witness :
    validateBranchName "main" = true
    ∧ validateBranchName "update-deps" = true
    ∧ validateDirectoryName "app" = true
    ∧ 0 < (" M package.json" : String).length
    ∧ subApiTrace (runAction ⟨some "main", some "update-deps", some "t", some "app", true⟩
        (mkEnv " M package.json" (.ok ()))).1
        = subEventSeq "update-deps" "app" ++ [prEvent "main" "update-deps"] :=
  ⟨by decide, by decide, by decide, by decide,
    C3_publisher_order _ _ _ _ _ _ _ (by decide) (by decide) (by decide) (by decide)⟩

/-- C4: when the PR-creation call throws, the error is caught: the run ends
failed, the underlying message reaches `core.setFailed`, the catch block logs
its error message, the final info line is still emitted last, and the
subprocess/API events are exactly the forward sequence ending in the PR call
— no later subprocess touches the pushed branch or the commit. -/
theorem C4_pr_failure_caught (bb hb tok wd : String) (dbg : Bool)
    (stdout m : String)
    (h1 : validateBranchName bb = true) (h2 : validateBranchName hb = true)
    (h3 : validateDirectoryName wd = true) (hs : 0 < stdout.length) :
    (runAction ⟨some bb, some hb, some tok, some wd, dbg⟩ (mkEnv stdout (.error m))).2 = .failed
    ∧ Event.setFailed m
        ∈ (runAction ⟨some bb, some hb, some tok, some wd, dbg⟩ (mkEnv stdout (.error m))).1
    ∧ Event.logError
        "[js-dependency-update] : Something went wrong while creating the PR. Check logs below"
        ∈ (runAction ⟨some bb, some hb, some tok, some wd, dbg⟩ (mkEnv stdout (.error m))).1
    ∧ subApiTrace (runAction ⟨some bb, some hb, some tok, some wd, dbg⟩
          (mkEnv stdout (.error m))).1
        = subEventSeq hb wd ++ [prEvent bb hb]
    ∧ (runAction ⟨some bb, some hb, some tok, some wd, dbg⟩ (mkEnv stdout (.error m))).1.getLast?
        = some (.logInfo "I am a custom JS action") := by
  refine ⟨?_, ?_, ?_, ?_, ?_⟩ <;>
  · first
      | rw [List.getLast?_eq_head?_reverse]
      | skip
    simp [runAction, mkEnv, h1, h2, h3, hs, subApiTrace, subEventSeq, prEvent, setupLogger, sep,
      Event.isSubOrApi, Event.isSub, Event.isApi, Logger.infoOut, Logger.errorOut]

/-- Witness for C4. -/
theorem C4_pr_failure_caught_witness :
    validateBranchName "main" = true
    ∧ validateBranchName "update-deps" = true
    ∧ validateDirectoryName "app" = true
    ∧ 0 < (" M package.json" : String).length
    ∧ ((runAction ⟨some "main", some "update-deps", some "t", some "app", false⟩
          (mkEnv " M package.json" (.error "Resource not accessible by integration"))).2 = .failed
      ∧ Event.setFailed "Resource not accessible by integration"
          ∈ (runAction ⟨some "main", some "update-deps", some "t", some "app", false⟩
              (mkEnv " M package.json" (.error "Resource not accessible by integration"))).1
      ∧ Event.logError
          "[js-dependency-update] : Something went wrong while creating the PR. Check logs below"
          ∈ (runAction ⟨some "main", some "update-deps", some "t", some "app", false⟩
              (mkEnv " M package.json" (.error "Resource not accessible by integration"))).1
      ∧ subApiTrace (runAction ⟨some "main", some "update-deps", some "t", some "app", false⟩
            (mkEnv " M package.json" (.error "Resource not accessible by integration"))).1
          = subEventSeq "update-deps" "app" ++ [prEvent "main" "update-deps"]
      ∧ (runAction ⟨some "main", some "update-deps", some "t", some "app", false⟩
            (mkEnv " M package.json" (.error "Resource not accessible by integration"))).1.getLast?
          = some (.logInfo "I am a custom JS action")) :=
  ⟨by decide, by decide, by decide, by decide,
    C4_pr_failure_caught _ _ _ _ _ _ _ (by decide) (by decide) (by decide) (by decide)⟩

/-- C10: every run that passes validation and whose subprocesses succeed —
whether no updates are found, the PR is created, or PR creation throws and is
caught — continues to the end of `run`: the final info message is the last
event, and the subprocess/API events are exactly the two detection commands
(no-updates path) or the forward publisher sequence ending with the PR call,
so nothing runs after the try/catch block. -/
theorem C10_run_reaches_end (bb hb tok wd : String) (dbg : Bool)
    (stdout : String) (pr : Except String Unit)
    (h1 : validateBranchName bb = true) (h2 : validateBranchName hb = true)
    (h3 : validateDirectoryName wd = true) :
    (runAction ⟨some bb, some hb, some tok, some wd, dbg⟩ (mkEnv stdout pr)).1.getLast?
      = some (.logInfo "I am a custom JS action")
    ∧ (stdout.length = 0 →
      subApiTrace (runAction ⟨some bb, some hb, some tok, some wd, dbg⟩ (mkEnv stdout pr)).1
        = [.subprocess "npm update" (some wd),
           .subprocess "git status -s package*.json" (some wd)])
    ∧ (0 < stdout.length →
      subApiTrace (runAction ⟨some bb, some hb, some tok, some wd, dbg⟩ (mkEnv stdout pr)).1
        = subEventSeq hb wd ++ [prEvent bb hb]) := by
  refine ⟨?_, ?_, ?_⟩
  · rw [List.getLast?_eq_head?_reverse]
    by_cases hs : 0 < stdout.length <;> cases pr <;>
      simp [runAction, mkEnv, h1, h2, h3, hs, Logger.infoOut, Logger.errorOut]
  · intro hs
    simp [runAction, mkEnv, h1, h2, h3, hs, subApiTrace,
      Event.isSubOrApi, Event.isSub, Event.isApi, Logger.infoOut]
  · intro hs
    cases pr <;>
      simp [runAction, mkEnv, h1, h2, h3, hs, subApiTrace, subEventSeq, prEvent,
        Event.isSubOrApi, Event.isSub, Event.isApi, Logger.infoOut, Logger.errorOut]

/-- Witness for C10 on the no-updates path. -/
theorem C10_run_reaches_end_witness :
    validateBranchName "main" = true
    ∧ validateBranchName "update-deps" = true
    ∧ validateDirectoryName "app" = true
    ∧ ((runAction ⟨some "main", some "update-deps", some "t", some "app", false⟩
          (mkEnv "" (.ok ()))).1.getLast? = some (.logInfo "I am a custom JS action")
      ∧ (("" : String).length = 0 →
        subApiTrace (runAction ⟨some "main", some "update-deps", some "t", some "app", false⟩
            (mkEnv "" (.ok ()))).1
          = [.subprocess "npm update" (some "app"),
             .subprocess "git status -s package*.json" (some "app")])
      ∧ (0 < ("" : String).length →
        subApiTrace (runAction ⟨some "main", some "update-deps", some "t", some "app", false⟩
            (mkEnv "" (.ok ()))).1
          = subEventSeq "update-deps" "app" ++ [prEvent "main" "update-deps"])) :=
  ⟨by decide, by decide, by decide,
    C10_run_reaches_end _ _ _ _ _ _ _ (by decide) (by decide) (by decide)⟩

/-- C5: any run whose trace contains a subprocess event had all four inputs
present and completed all three validations successfully; moreover its
subprocess events form a prefix of the fixed forward command sequence, whose
only interpolated values are the validated head branch (checkout, push) and
the validated working directory (the cwd of every scoped command). -/
theorem C5_validation_before_subprocess (inp : Inputs) (env : Env)
    (h : (runAction inp env).1.any Event.isSub = true) :
    ∃ bb hb tok wd,
      inp.baseBranch = some bb ∧ inp.headBranch = some hb
      ∧ inp.ghToken = some tok ∧ inp.workingDir = some wd
      ∧ validateBranchName bb = true ∧ validateBranchName hb = true
      ∧ validateDirectoryName wd = true
      ∧ subTrace (runAction inp env).1 <+: subEventSeq hb wd := by
  obtain ⟨bb, hb, tok, wd, e1, e2, e3, e4, v1, v2, v3⟩ :=
    validated_of_subprocess inp env h
  refine ⟨bb, hb, tok, wd, e1, e2, e3, e4, v1, v2, v3, ?_⟩
  obtain ⟨obb, ohb, otok, owd, dbg⟩ := inp
  dsimp only at e1 e2 e3 e4
  subst e1 e2 e3 e4
  obtain ⟨f1, f2, sout, f3, f4, f5, f6, f7, f8, pr⟩ := env
  cases f1 with
  | false =>
    simp [runAction, v1, v2, v3, subTrace, subEventSeq, Event.isSub,
      List.cons_prefix_cons]
  | true =>
  cases f2 with
  | false =>
    simp [runAction, v1, v2, v3, subTrace, subEventSeq, Event.isSub,
      List.cons_prefix_cons]
  | true =>
  by_cases hs : 0 < sout.length
  · cases f3 with
    | false =>
      simp [runAction, v1, v2, v3, hs, subTrace, subEventSeq, Event.isSub,
        List.cons_prefix_cons]
    | true =>
    cases f4 with
    | false =>
      simp [runAction, v1, v2, v3, hs, subTrace, subEventSeq, Event.isSub,
        List.cons_prefix_cons]
    | true =>
    cases f5 with
    | false =>
      simp [runAction, v1, v2, v3, hs, subTrace, subEventSeq, Event.isSub,
        List.cons_prefix_cons]
    | true =>
    cases f6 with
    | false =>
      simp [runAction, v1, v2, v3, hs, subTrace, subEventSeq, Event.isSub,
        List.cons_prefix_cons]
    | true =>
    cases f7 with
    | false =>
      simp [runAction, v1, v2, v3, hs, subTrace, subEventSeq, Event.isSub,
        List.cons_prefix_cons]
    | true =>
    cases f8 with
    | false =>
      simp [runAction, v1, v2, v3, hs, subTrace, subEventSeq, Event.isSub,
        List.cons_prefix_cons]
    | true =>
      cases pr <;>
        simp [runAction, v1, v2, v3, hs, subTrace, subEventSeq, Event.isSub,
          Logger.errorOut, List.cons_prefix_cons]
  · simp [runAction, v1, v2, v3, hs, subTrace, subEventSeq, Event.isSub,
      Logger.infoOut, List.cons_prefix_cons]

/-- Witness for C5 on a run that reached the npm update subprocess. -/
theorem C5_validation_before_subprocess_witness :
    ((runAction ⟨some "main", some "update-deps", some "t", some "app", false⟩
        (mkEnv "" (.ok ()))).1.any Event.isSub = true)
    ∧ ∃ bb hb tok wd,
      (⟨some "main", some "update-deps", some "t", some "app", false⟩ : Inputs).baseBranch = some bb
      ∧ (⟨some "main", some "update-deps", some "t", some "app", false⟩ : Inputs).headBranch = some hb
      ∧ (⟨some "main", some "update-deps", some "t", some "app", false⟩ : Inputs).ghToken = some tok
      ∧ (⟨some "main", some "update-deps", some "t", some "app", false⟩ : Inputs).workingDir = some wd
      ∧ validateBranchName bb = true ∧ validateBranchName hb = true
      ∧ validateDirectoryName wd = true
      ∧ subTrace (runAction ⟨some "main", some "update-deps", some "t", some "app", false⟩
          (mkEnv "" (.ok ()))).1 <+: subEventSeq hb wd :=
  ⟨by decide, C5_validation_before_subprocess _ _ (by decide)⟩

end JsDependencyUpdate
